import Mathlib

/-!
Shallow embedding of the logger subsystem of `compboost` (`src/logger.cpp`).

Modelling conventions:
* `arma::vec` (vectors of `double`) are modelled as `List ℚ` with exact
  rational arithmetic.
* `std::vector<unsigned int>` becomes `List Nat`, `std::vector<double>`
  becomes `List ℚ`.
* The `loss::Loss` collaborator is used only through
  `definedLoss(response, prediction) -> arma::vec`; it is modelled as a
  function `List ℚ → List ℚ → List ℚ` stored in the logger state.
* The `blearner::Baselearner` collaborator is used only through
  `getDataIdentifier()` and `predict(data)`; it is modelled as a structure
  holding those two capabilities, polymorphic in the dataset type.
* `std::map<std::string, data::Data*>` becomes an association list
  `List (String × Data)`; `find` becomes `List.lookup`.
* The monotonic clock of `LoggerTime` is injected: `logStep` receives the
  current instant `now` (in microsecond ticks) as an explicit argument, and
  `std::chrono::duration_cast` truncation is integer division by the number
  of microseconds per configured unit.
* Reading the last element of an empty `std::vector` (`.back()`) is
  undefined behaviour in C++; queries that may do so return `Option Bool`,
  with `none` marking the undefined case.
* `Rcpp::stop` in a constructor is modelled as `Except.error` carrying the
  diagnostic string; a dereference of a failed `std::map::find` (an `end()`
  iterator) raises no diagnostic at all and is modelled by the distinguished
  outcome `StepOutcome.ub`, which records the state as already mutated in
  program order before the undefined operation is reached.
-/

namespace Compboost

/-- Mean of a vector, as in `arma::mean` / `arma::accu(v) / v.size()`. -/
def mean (l : List ℚ) : ℚ := l.sum / l.length

/-- The `blearner::Baselearner` collaborator, restricted to the two
operations the loggers use. -/
structure Baselearner (Data : Type) where
  getDataIdentifier : String
  predict : Data → List ℚ

-- ------------------------------------------------------------------ --
-- LoggerIteration
-- ------------------------------------------------------------------ --

/-- State of `LoggerIteration`: the `is_a_stopper` flag of the abstract
base class, the immutable bound `max_iterations`, and the logged
`iterations` vector. -/
structure LoggerIteration where
  is_a_stopper : Bool
  max_iterations : Nat
  iterations : List Nat

/-- `LoggerIteration::LoggerIteration`. -/
def LoggerIteration.create (is_a_stopper0 : Bool) (max_iterations : Nat) :
    LoggerIteration :=
  { is_a_stopper := is_a_stopper0, max_iterations := max_iterations,
    iterations := [] }

/-- `LoggerIteration::logStep`: pushes `current_iteration`.  The C++
signature also receives `response`, `prediction`, `used_blearner`, `offset`
and `learning_rate`, none of which the body reads; they are omitted here. -/
def LoggerIteration.logStep (l : LoggerIteration)
    (current_iteration : Nat) : LoggerIteration :=
  { l with iterations := l.iterations ++ [current_iteration] }

/-- `LoggerIteration::reachedStopCriteria`: `false` unless the logger is a
stopper; otherwise compares `iterations.back()` with `max_iterations`.
`back()` on an empty vector is undefined (`none`). -/
def LoggerIteration.reachedStopCriteria (l : LoggerIteration) :
    Option Bool :=
  if l.is_a_stopper then
    match l.iterations.getLast? with
    | none => none
    | some last => some (decide (l.max_iterations ≤ last))
  else
    some false

/-- `LoggerIteration::getLoggedData`: the iteration counts cast to
`double`. -/
def LoggerIteration.getLoggedData (l : LoggerIteration) : List ℚ :=
  l.iterations.map (fun (i : Nat) => (i : ℚ))

/-- `LoggerIteration::clearLoggerData`. -/
def LoggerIteration.clearLoggerData (l : LoggerIteration) : LoggerIteration :=
  { l with iterations := [] }

/-- Driver: one `logStep` per listed round, in order. -/
def LoggerIteration.runSteps (l : LoggerIteration) (rounds : List Nat) :
    LoggerIteration :=
  rounds.foldl (fun s r => s.logStep r) l

-- ------------------------------------------------------------------ --
-- LoggerInbagRisk
-- ------------------------------------------------------------------ --

/-- State of `LoggerInbagRisk`: stopper flag, the borrowed loss evaluator
(kept as its `definedLoss` capability), the plateau threshold
`eps_for_break`, and the tracked risk vector. -/
structure LoggerInbagRisk where
  is_a_stopper : Bool
  used_loss : List ℚ → List ℚ → List ℚ
  eps_for_break : ℚ
  tracked_inbag_risk : List ℚ

/-- `LoggerInbagRisk::LoggerInbagRisk`. -/
def LoggerInbagRisk.create (is_a_stopper0 : Bool)
    (used_loss : List ℚ → List ℚ → List ℚ) (eps_for_break : ℚ) :
    LoggerInbagRisk :=
  { is_a_stopper := is_a_stopper0, used_loss := used_loss,
    eps_for_break := eps_for_break, tracked_inbag_risk := [] }

/-- `LoggerInbagRisk::logStep`: pushes
`arma::mean(used_loss->definedLoss(response, prediction))`.  The unused
C++ parameters (`current_iteration`, `used_blearner`, `offset`,
`learning_rate`) are omitted. -/
def LoggerInbagRisk.logStep (l : LoggerInbagRisk)
    (response prediction : List ℚ) : LoggerInbagRisk :=
  { l with tracked_inbag_risk :=
      l.tracked_inbag_risk ++ [mean (l.used_loss response prediction)] }

/-- `LoggerInbagRisk::reachedStopCriteria`: with more than one tracked
entry, stop when
`(risk[n-2] - risk[n-1]) / risk[n-2] <= eps_for_break`. -/
def LoggerInbagRisk.reachedStopCriteria (l : LoggerInbagRisk) :
    Option Bool :=
  some (
    if l.is_a_stopper then
      if 1 < l.tracked_inbag_risk.length then
        let n := l.tracked_inbag_risk.length
        let inbag_eps :=
          (l.tracked_inbag_risk.getD (n - 2) 0 -
            l.tracked_inbag_risk.getD (n - 1) 0) /
          l.tracked_inbag_risk.getD (n - 2) 0
        decide (inbag_eps ≤ l.eps_for_break)
      else false
    else false)

/-- `LoggerInbagRisk::getLoggedData`. -/
def LoggerInbagRisk.getLoggedData (l : LoggerInbagRisk) : List ℚ :=
  l.tracked_inbag_risk

/-- `LoggerInbagRisk::clearLoggerData`. -/
def LoggerInbagRisk.clearLoggerData (l : LoggerInbagRisk) : LoggerInbagRisk :=
  { l with tracked_inbag_risk := [] }

/-- Driver: one `logStep` per `(response, prediction)` pair, in order. -/
def LoggerInbagRisk.runSteps (l : LoggerInbagRisk)
    (steps : List (List ℚ × List ℚ)) : LoggerInbagRisk :=
  steps.foldl (fun s rp => s.logStep rp.1 rp.2) l

-- ------------------------------------------------------------------ --
-- LoggerOobRisk
-- ------------------------------------------------------------------ --

/-- State of `LoggerOobRisk`: stopper flag, borrowed loss evaluator,
`eps_for_break`, the held-out data map `oob_data`, the held-out response
`oob_response`, the running held-out prediction `oob_prediction`, and the
tracked risk vector. -/
structure LoggerOobRisk (Data : Type) where
  is_a_stopper : Bool
  used_loss : List ℚ → List ℚ → List ℚ
  eps_for_break : ℚ
  oob_data : List (String × Data)
  oob_response : List ℚ
  oob_prediction : List ℚ
  tracked_oob_risk : List ℚ

/-- `LoggerOobRisk::LoggerOobRisk`.  The constructor allocates
`oob_prediction` with `oob_response.size()` elements
(`arma::vec temp (oob_response.size())`); the element values are whatever
Armadillo leaves there, so we model the allocation by a parameter
`initial_fill` standing for the unspecified initial contents (length
`oob_response.length`). -/
def LoggerOobRisk.create {Data : Type} (is_a_stopper0 : Bool)
    (used_loss : List ℚ → List ℚ → List ℚ) (eps_for_break : ℚ)
    (oob_data : List (String × Data)) (oob_response : List ℚ)
    (initial_fill : ℚ) : LoggerOobRisk Data :=
  { is_a_stopper := is_a_stopper0, used_loss := used_loss,
    eps_for_break := eps_for_break, oob_data := oob_data,
    oob_response := oob_response,
    oob_prediction := oob_response.map (fun _ => initial_fill),
    tracked_oob_risk := [] }

/-- Outcome of a fallible step.  `ok` is normal completion.  `ub` marks
that the step reached an operation with undefined behaviour in C++
(dereferencing the `end()` iterator returned by a failed `std::map::find`);
the carried state is the logger state as already mutated in program order
before the undefined operation, after which nothing is defined. -/
inductive StepOutcome (α : Type) where
  | ok (s : α)
  | ub (s : α)

/-- `LoggerOobRisk::logStep`.  In source order: if `current_iteration == 1`
then `oob_prediction.fill(offset)`; look up the selected base-learner's
data identifier in `oob_data` (an unchecked `find(...)->second`: a missing
key is undefined behaviour); predict on that data; accumulate
`oob_prediction += learning_rate * temp_oob_prediction`; push
`arma::accu(loss_vec) / loss_vec.size()` of
`used_loss->definedLoss(oob_response, oob_prediction)`.  The unused C++
parameters `response` and `prediction` (training data) are omitted. -/
def LoggerOobRisk.logStep {Data : Type} (l : LoggerOobRisk Data)
    (current_iteration : Nat) (used_blearner : Baselearner Data)
    (offset learning_rate : ℚ) : StepOutcome (LoggerOobRisk Data) :=
  let l1 := if current_iteration = 1 then
      { l with oob_prediction := l.oob_prediction.map (fun _ => offset) }
    else l
  match l1.oob_data.lookup used_blearner.getDataIdentifier with
  | none => .ub l1
  | some oob_blearner_data =>
    let temp_oob_prediction := used_blearner.predict oob_blearner_data
    let new_prediction := List.zipWith
      (fun a b => a + learning_rate * b) l1.oob_prediction temp_oob_prediction
    let temp_risk := mean (l1.used_loss l1.oob_response new_prediction)
    .ok { l1 with oob_prediction := new_prediction,
                  tracked_oob_risk := l1.tracked_oob_risk ++ [temp_risk] }

/-- `LoggerOobRisk::reachedStopCriteria`: same form as the inbag variant,
over `tracked_oob_risk`. -/
def LoggerOobRisk.reachedStopCriteria {Data : Type}
    (l : LoggerOobRisk Data) : Option Bool :=
  some (
    if l.is_a_stopper then
      if 1 < l.tracked_oob_risk.length then
        let n := l.tracked_oob_risk.length
        let oob_eps :=
          (l.tracked_oob_risk.getD (n - 2) 0 -
            l.tracked_oob_risk.getD (n - 1) 0) /
          l.tracked_oob_risk.getD (n - 2) 0
        decide (oob_eps ≤ l.eps_for_break)
      else false
    else false)

/-- `LoggerOobRisk::getLoggedData`. -/
def LoggerOobRisk.getLoggedData {Data : Type} (l : LoggerOobRisk Data) :
    List ℚ :=
  l.tracked_oob_risk

/-- `LoggerOobRisk::clearLoggerData`: clears only `tracked_oob_risk`. -/
def LoggerOobRisk.clearLoggerData {Data : Type} (l : LoggerOobRisk Data) :
    LoggerOobRisk Data :=
  { l with tracked_oob_risk := [] }

/-- Driver: `logStep` at iterations `start, start+1, …`, one per listed
base learner, stopping at the first undefined step. -/
def LoggerOobRisk.runFrom {Data : Type} (l : LoggerOobRisk Data)
    (start : Nat) (blearners : List (Baselearner Data))
    (offset learning_rate : ℚ) : StepOutcome (LoggerOobRisk Data) :=
  match blearners with
  | [] => .ok l
  | b :: rest =>
    match l.logStep start b offset learning_rate with
    | .ok s => s.runFrom (start + 1) rest offset learning_rate
    | .ub s => .ub s

/-- Projection used to state concrete facts about the running held-out
prediction after a run. -/
def StepOutcome.predictionOf {Data : Type} :
    StepOutcome (LoggerOobRisk Data) → Option (List ℚ)
  | .ok s => some s.oob_prediction
  | .ub _ => none

-- ------------------------------------------------------------------ --
-- LoggerTime
-- ------------------------------------------------------------------ --

/-- State of `LoggerTime`: stopper flag, the budget `max_time`, the unit
string `time_unit`, the lazily anchored start instant `init_time` (a
monotonic-clock reading, in microsecond ticks), and the logged elapsed
counts `current_time`. -/
structure LoggerTime where
  is_a_stopper : Bool
  max_time : Nat
  time_unit : String
  init_time : Nat
  current_time : List Nat

/-- An apostrophe character, used to reproduce the constructor's
diagnostic text. -/
def apos : String := String.singleton (Char.ofNat 39)

/-- The diagnostic raised by `Rcpp::stop` in `LoggerTime::LoggerTime` for
an unrecognized time unit. -/
def timeUnitStopMsg : String :=
  "Time unit has to be one of " ++ apos ++ "microseconds" ++ apos ++
    ", " ++ apos ++ "seconds" ++ apos ++ " or " ++ apos ++ "minutes" ++
    apos ++ "."

/-- `LoggerTime::LoggerTime`: validates `time_unit` against
`{"minutes", "seconds", "microseconds"}` with nested inequality tests and
raises `Rcpp::stop(timeUnitStopMsg)` otherwise.  The default-constructed
`init_time` member is modelled as instant `0`; `current_time` starts
empty. -/
def LoggerTime.create (is_a_stopper0 : Bool) (max_time : Nat)
    (time_unit : String) : Except String LoggerTime :=
  if time_unit ≠ "minutes" then
    if time_unit ≠ "seconds" then
      if time_unit ≠ "microseconds" then
        .error timeUnitStopMsg
      else
        .ok { is_a_stopper := is_a_stopper0, max_time := max_time,
              time_unit := time_unit, init_time := 0, current_time := [] }
    else
      .ok { is_a_stopper := is_a_stopper0, max_time := max_time,
            time_unit := time_unit, init_time := 0, current_time := [] }
  else
    .ok { is_a_stopper := is_a_stopper0, max_time := max_time,
          time_unit := time_unit, init_time := 0, current_time := [] }

/-- Number of microsecond ticks per unit named `u` (the divisors of the
`std::chrono::duration_cast` truncations). -/
def ticksPerUnit (u : String) : Nat :=
  if u = "minutes" then 60000000
  else if u = "seconds" then 1000000
  else 1

/-- One of the three unit-guarded appends in `LoggerTime::logStep`: if
`time_unit == u`, push the elapsed duration truncated to whole units of
`u`, else leave the state unchanged. -/
def LoggerTime.pushIfUnit (l : LoggerTime) (u : String) (now : Nat) :
    LoggerTime :=
  if l.time_unit = u then
    { l with current_time :=
        l.current_time ++ [(now - l.init_time) / ticksPerUnit u] }
  else l

/-- `LoggerTime::logStep`: if no entry has been logged yet, anchor
`init_time` to the current monotonic instant; then the three unit-guarded
appends in source order.  The monotonic clock is injected as `now`
(microsecond ticks); all unused C++ parameters are omitted. -/
def LoggerTime.logStep (l : LoggerTime) (now : Nat) : LoggerTime :=
  let l1 := if l.current_time.length = 0 then { l with init_time := now }
    else l
  ((l1.pushIfUnit "minutes" now).pushIfUnit "seconds" now).pushIfUnit
    "microseconds" now

/-- `LoggerTime::reachedStopCriteria`: `false` unless a stopper; otherwise
compares `current_time.back()` with `max_time`.  `back()` on an empty
vector is undefined (`none`). -/
def LoggerTime.reachedStopCriteria (l : LoggerTime) : Option Bool :=
  if l.is_a_stopper then
    match l.current_time.getLast? with
    | none => none
    | some last => some (decide (l.max_time ≤ last))
  else
    some false

/-- `LoggerTime::getLoggedData`: elapsed counts cast to `double`. -/
def LoggerTime.getLoggedData (l : LoggerTime) : List ℚ :=
  l.current_time.map (fun (t : Nat) => (t : ℚ))

/-- `LoggerTime::clearLoggerData`: clears only `current_time` (the anchor
`init_time` is re-captured by the next `logStep` because the log is
empty again). -/
def LoggerTime.clearLoggerData (l : LoggerTime) : LoggerTime :=
  { l with current_time := [] }

/-- Driver: one `logStep` per listed clock instant, in order. -/
def LoggerTime.runSteps (l : LoggerTime) (nows : List Nat) : LoggerTime :=
  nows.foldl (fun s t => s.logStep t) l

/-- `true` when `pat` occurs as a contiguous substring of `s`; used to ask
whether a diagnostic message mentions a given value. -/
def containsStr (s pat : String) : Bool :=
  s.toList.tails.any (fun t => pat.toList.isPrefixOf t)

/-- `true` exactly on normal completion of a step. -/
def StepOutcome.isOk {α : Type} : StepOutcome α → Bool
  | .ok _ => true
  | .ub _ => false

-- ------------------------------------------------------------------ --
-- Concrete instances used by the spec's worked examples
-- ------------------------------------------------------------------ --

/-- `TrainRiskLogger(eps_for_break = 0.05, is_stopper = true)` with a loss
evaluator that returns the prediction vector unchanged, so that feeding
one-element predictions realises a chosen risk sequence. -/
def c1logger : LoggerInbagRisk :=
  LoggerInbagRisk.create true (fun _ p => p) (1/20)

/-- `c1logger` fed the risk sequence `[1.0, 0.9]`. -/
def c1after2 : LoggerInbagRisk :=
  c1logger.runSteps [([0], [1]), ([0], [9/10])]

/-- `c1logger` fed the risk sequence `[1.0, 0.9, 0.87]`. -/
def c1after3 : LoggerInbagRisk :=
  c1logger.runSteps [([0], [1]), ([0], [9/10]), ([0], [87/100])]

/-- A held-out base learner over trivial data, registered under
identifier `"x"`, predicting `[2.0]` for the single held-out
observation. -/
def c2blearner : Baselearner Unit :=
  { getDataIdentifier := "x", predict := fun _ => [2] }

/-- `ValidationRiskLogger` over one held-out observation whose data map
carries the single entry `"x"`. -/
def c2logger : LoggerOobRisk Unit :=
  LoggerOobRisk.create false
    (fun r p => List.zipWith (fun a b => (a - b) * (a - b)) r p) (1/20)
    [("x", ())] [0] 0

/-- `c2logger` after `n` rounds (iterations `1, …, n`) selecting
`c2blearner`, with `offset = 0.0` and `learning_rate = 0.1`. -/
def c2run (n : Nat) : StepOutcome (LoggerOobRisk Unit) :=
  c2logger.runFrom 1 (List.replicate n c2blearner) 0 (1/10)

/-- An `IterationLogger` configured as a stopper with no round logged
yet. -/
def c3logger : LoggerIteration :=
  LoggerIteration.create true 5

/-- A `LoggerTime` stopper with no entry logged yet. -/
def c3timelogger : LoggerTime :=
  { is_a_stopper := true, max_time := 10, time_unit := "seconds",
    init_time := 0, current_time := [] }

/-- A `ValidationRiskLogger` mid-session: one tracked risk and a non-zero
running held-out prediction. -/
def c4logger : LoggerOobRisk Unit :=
  { is_a_stopper := false, used_loss := fun _ p => p, eps_for_break := 0,
    oob_data := [("x", ())], oob_response := [1], oob_prediction := [5],
    tracked_oob_risk := [2] }

/-- A `ValidationRiskLogger` whose held-out data map knows only the
identifier `"x"`. -/
def c5logger : LoggerOobRisk Unit :=
  { is_a_stopper := false, used_loss := fun _ p => p, eps_for_break := 0,
    oob_data := [("x", ())], oob_response := [1], oob_prediction := [7],
    tracked_oob_risk := [] }

/-- A base learner whose data identifier `"y"` is absent from
`c5logger`'s held-out data map. -/
def c5blearner : Baselearner Unit :=
  { getDataIdentifier := "y", predict := fun _ => [2] }

/-- `IterationLogger(max_iterations = 5, is_stopper = true)`. -/
def c7logger : LoggerIteration :=
  LoggerIteration.create true 5

/-- `TimeLogger("seconds", max_time = 0, is_stopper = true)`, the state
produced by a successful `LoggerTime.create`. -/
def c8logger : LoggerTime :=
  { is_a_stopper := true, max_time := 0, time_unit := "seconds",
    init_time := 0, current_time := [] }

/-- A small `ValidationRiskLogger` used to exercise the growth
invariant. -/
def c9logger : LoggerOobRisk Unit :=
  { is_a_stopper := false, used_loss := fun _ p => p, eps_for_break := 0,
    oob_data := [("x", ())], oob_response := [0], oob_prediction := [0],
    tracked_oob_risk := [] }

/-- A base learner matching `c9logger`'s held-out data map. -/
def c9blearner : Baselearner Unit :=
  { getDataIdentifier := "x", predict := fun _ => [2] }

/-- The state `c9logger` reaches after one cleared-session round with
`c9blearner`, `offset = 0`, `learning_rate = 1`. -/
def c9run1 : LoggerOobRisk Unit :=
  { c9logger with oob_prediction := [2], tracked_oob_risk := [2] }

-- ------------------------------------------------------------------ --
-- Helper lemmas
-- ------------------------------------------------------------------ --

theorem iterations_runSteps (rounds : List Nat) :
    ∀ l : LoggerIteration, (l.runSteps rounds).iterations =
      l.iterations ++ rounds := by
  induction rounds with
  | nil => intro l; simp [LoggerIteration.runSteps]
  | cons r rest ih =>
    intro l
    simp only [LoggerIteration.runSteps, List.foldl_cons]
    have h := ih (l.logStep r)
    simp only [LoggerIteration.runSteps] at h
    rw [h]
    simp [LoggerIteration.logStep]

theorem tracked_runSteps_inbag (steps : List (List ℚ × List ℚ)) :
    ∀ l : LoggerInbagRisk, (l.runSteps steps).tracked_inbag_risk =
      l.tracked_inbag_risk ++
        steps.map (fun rp => mean (l.used_loss rp.1 rp.2)) := by
  induction steps with
  | nil => intro l; simp [LoggerInbagRisk.runSteps]
  | cons rp rest ih =>
    intro l
    simp only [LoggerInbagRisk.runSteps, List.foldl_cons]
    have h := ih (l.logStep rp.1 rp.2)
    simp only [LoggerInbagRisk.runSteps] at h
    rw [h]
    simp [LoggerInbagRisk.logStep]

theorem current_time_logStep (l : LoggerTime) (now : Nat)
    (h : l.time_unit = "minutes" ∨ l.time_unit = "seconds" ∨
      l.time_unit = "microseconds") :
    ∃ x, (l.logStep now).current_time = l.current_time ++ [x] := by
  obtain ⟨b, m, u, i, c⟩ := l
  simp only [LoggerTime.logStep, LoggerTime.pushIfUnit] at *
  rcases h with h | h | h <;> subst h <;>
    by_cases hc : c.length = 0 <;> simp [hc]

theorem time_unit_logStep (l : LoggerTime) (now : Nat) :
    (l.logStep now).time_unit = l.time_unit := by
  obtain ⟨b, m, u, i, c⟩ := l
  simp only [LoggerTime.logStep, LoggerTime.pushIfUnit]
  split <;> split <;> split <;> split <;> simp_all

theorem length_runSteps_time (nows : List Nat) :
    ∀ l : LoggerTime,
      (l.time_unit = "minutes" ∨ l.time_unit = "seconds" ∨
        l.time_unit = "microseconds") →
      (l.runSteps nows).current_time.length =
        l.current_time.length + nows.length := by
  induction nows with
  | nil => intro l _; simp [LoggerTime.runSteps]
  | cons t rest ih =>
    intro l h
    simp only [LoggerTime.runSteps, List.foldl_cons]
    obtain ⟨x, hx⟩ := current_time_logStep l t h
    have hu : (l.logStep t).time_unit = l.time_unit := time_unit_logStep l t
    have h' := ih (l.logStep t) (by rw [hu]; exact h)
    simp only [LoggerTime.runSteps] at h'
    rw [h', hx]
    simp
    omega

theorem tracked_logStep_oob {Data : Type} (l : LoggerOobRisk Data)
    (ci : Nat) (bl : Baselearner Data) (offset lr : ℚ)
    (s : LoggerOobRisk Data) (h : l.logStep ci bl offset lr = .ok s) :
    ∃ x, s.tracked_oob_risk = l.tracked_oob_risk ++ [x] := by
  by_cases hci : ci = 1
  · simp only [LoggerOobRisk.logStep, hci, reduceIte] at h
    split at h
    · cases h
    · cases h
      simp
  · simp only [LoggerOobRisk.logStep, if_neg hci] at h
    split at h
    · cases h
    · cases h
      simp

theorem length_runFrom_oob {Data : Type}
    (bls : List (Baselearner Data)) :
    ∀ (l : LoggerOobRisk Data) (start : Nat) (offset lr : ℚ)
      (s : LoggerOobRisk Data),
      l.runFrom start bls offset lr = .ok s →
      s.tracked_oob_risk.length = l.tracked_oob_risk.length + bls.length := by
  induction bls with
  | nil =>
    intro l start offset lr s h
    simp only [LoggerOobRisk.runFrom] at h
    cases h
    simp
  | cons b rest ih =>
    intro l start offset lr s h
    simp only [LoggerOobRisk.runFrom] at h
    cases hstep : l.logStep start b offset lr with
    | ok s1 =>
      rw [hstep] at h
      obtain ⟨x, hx⟩ := tracked_logStep_oob l start b offset lr s1 hstep
      have h' := ih s1 (start + 1) offset lr s h
      rw [h', hx]
      simp
      omega
    | ub s1 =>
      rw [hstep] at h
      cases h

theorem is_a_stopper_time_logStep (l : LoggerTime) (now : Nat) :
    (l.logStep now).is_a_stopper = l.is_a_stopper := by
  obtain ⟨b, m, u, i, c⟩ := l
  simp only [LoggerTime.logStep, LoggerTime.pushIfUnit]
  split <;> split <;> split <;> split <;> simp_all

theorem max_time_logStep (l : LoggerTime) (now : Nat) :
    (l.logStep now).max_time = l.max_time := by
  obtain ⟨b, m, u, i, c⟩ := l
  simp only [LoggerTime.logStep, LoggerTime.pushIfUnit]
  split <;> split <;> split <;> split <;> simp_all

-- ------------------------------------------------------------------ --
-- Claim theorems
-- ------------------------------------------------------------------ --

/-- C1: For the TrainRiskLogger (`LoggerInbagRisk`) configured as a
stopper, `reachedStopCriteria` returns `false` whenever fewer than two
risk entries have been logged; once at least two entries exist it returns
`true` iff `(risk[n-2] - risk[n-1]) / risk[n-2] ≤ eps_for_break`.  Fed the
risk sequence `[1.0, 0.9, 0.87]` with `eps_for_break = 0.05`, it does not
stop after the second entry and stops after the third. -/
theorem C1_inbag_stop_criterion :
    (∀ l : LoggerInbagRisk, l.is_a_stopper = true →
      (l.tracked_inbag_risk.length < 2 →
        l.reachedStopCriteria = some false) ∧
      (2 ≤ l.tracked_inbag_risk.length →
        (l.reachedStopCriteria = some true ↔
          (l.tracked_inbag_risk.getD (l.tracked_inbag_risk.length - 2) 0 -
            l.tracked_inbag_risk.getD (l.tracked_inbag_risk.length - 1) 0) /
            l.tracked_inbag_risk.getD (l.tracked_inbag_risk.length - 2) 0 ≤
            l.eps_for_break))) ∧
    c1after2.reachedStopCriteria = some false ∧
    c1after3.reachedStopCriteria = some true := by
  refine ⟨fun l h => ⟨fun hlt => ?_, fun hge => ?_⟩, ?_, ?_⟩
  · have hn : ¬ (1 < l.tracked_inbag_risk.length) := by omega
    simp [LoggerInbagRisk.reachedStopCriteria, h, hn]
  · have h1 : 1 < l.tracked_inbag_risk.length := by omega
    simp [LoggerInbagRisk.reachedStopCriteria, h, h1]
  · norm_num [c1after2, c1logger, LoggerInbagRisk.create,
      LoggerInbagRisk.runSteps, LoggerInbagRisk.logStep,
      LoggerInbagRisk.reachedStopCriteria, mean, List.getD]
  · norm_num [c1after3, c1logger, LoggerInbagRisk.create,
      LoggerInbagRisk.runSteps, LoggerInbagRisk.logStep,
      LoggerInbagRisk.reachedStopCriteria, mean, List.getD]

/-- Witness for C1 at a concrete one-entry logger. -/
theorem C1_witness :
    ({ is_a_stopper := true, used_loss := fun _ p => p, eps_for_break := 1/20,
       tracked_inbag_risk := [1] } : LoggerInbagRisk).reachedStopCriteria =
      some false :=
  (C1_inbag_stop_criterion.1 _ rfl).1 (by norm_num)

/-- C7: For the IterationLogger configured as a stopper, after at least
one `logStep`, `reachedStopCriteria` returns `true` iff the latest logged
round index is at least `max_iterations`; with `max_iterations = 5` it is
`false` after rounds 1–4 and `true` after round 5. -/
theorem C7_iteration_stop_criterion :
    (∀ l : LoggerIteration, l.is_a_stopper = true →
      ∀ last, l.iterations.getLast? = some last →
        (l.reachedStopCriteria = some true ↔ l.max_iterations ≤ last)) ∧
    (c7logger.runSteps [1]).reachedStopCriteria = some false ∧
    (c7logger.runSteps [1, 2]).reachedStopCriteria = some false ∧
    (c7logger.runSteps [1, 2, 3]).reachedStopCriteria = some false ∧
    (c7logger.runSteps [1, 2, 3, 4]).reachedStopCriteria = some false ∧
    (c7logger.runSteps [1, 2, 3, 4, 5]).reachedStopCriteria = some true := by
  refine ⟨fun l h last hlast => ?_, ?_, ?_, ?_, ?_, ?_⟩
  · simp [LoggerIteration.reachedStopCriteria, h, hlast]
  all_goals decide

/-- Witness for C7 at a concrete logger with rounds `[1, …, 5]` logged. -/
theorem C7_witness :
    (c7logger.runSteps [1, 2, 3, 4, 5]).reachedStopCriteria = some true :=
  (C7_iteration_stop_criterion.1 _ rfl 5 (by decide)).mpr (by decide)

/-- C3 fails as stated: an IterationLogger configured as a stopper, asked
for its stop criterion before any `logStep`, evaluates
`iterations.back()` on an empty vector — undefined behaviour, not
`false`; likewise for a TimeLogger stopper. -/
theorem C3_counterexample :
    c3logger.reachedStopCriteria = none ∧
    ¬ c3logger.reachedStopCriteria = some false ∧
    c3timelogger.reachedStopCriteria = none := by
  decide

/-- C3 amended: before any `logStep` (and after `clearLoggerData` with no
intervening `logStep`) the two risk loggers return `false`, and any logger
not configured as a stopper returns `false`; but the Iteration and Time
loggers configured as stoppers read the last element of an empty sequence
there, which is undefined. -/
theorem C3_amended_stop_query :
    (∀ l : LoggerInbagRisk, l.tracked_inbag_risk.length ≤ 1 →
      l.reachedStopCriteria = some false) ∧
    (∀ (Data : Type) (l : LoggerOobRisk Data),
      l.tracked_oob_risk.length ≤ 1 → l.reachedStopCriteria = some false) ∧
    (∀ l : LoggerIteration, l.is_a_stopper = false →
      l.reachedStopCriteria = some false) ∧
    (∀ l : LoggerTime, l.is_a_stopper = false →
      l.reachedStopCriteria = some false) ∧
    (∀ l : LoggerIteration, l.is_a_stopper = true → l.iterations = [] →
      l.reachedStopCriteria = none) ∧
    (∀ l : LoggerTime, l.is_a_stopper = true → l.current_time = [] →
      l.reachedStopCriteria = none) ∧
    (∀ l : LoggerInbagRisk,
      l.clearLoggerData.reachedStopCriteria = some false) ∧
    (∀ (Data : Type) (l : LoggerOobRisk Data),
      l.clearLoggerData.reachedStopCriteria = some false) ∧
    (∀ l : LoggerIteration, l.is_a_stopper = true →
      l.clearLoggerData.reachedStopCriteria = none) ∧
    (∀ l : LoggerTime, l.is_a_stopper = true →
      l.clearLoggerData.reachedStopCriteria = none) := by
  refine ⟨fun l h => ?_, fun Data l h => ?_, fun l h => ?_, fun l h => ?_,
    fun l h he => ?_, fun l h he => ?_, fun l => ?_, fun Data l => ?_,
    fun l h => ?_, fun l h => ?_⟩
  · have hn : ¬ (1 < l.tracked_inbag_risk.length) := by omega
    simp [LoggerInbagRisk.reachedStopCriteria, hn]
  · have hn : ¬ (1 < l.tracked_oob_risk.length) := by omega
    simp [LoggerOobRisk.reachedStopCriteria, hn]
  · simp [LoggerIteration.reachedStopCriteria, h]
  · simp [LoggerTime.reachedStopCriteria, h]
  · simp [LoggerIteration.reachedStopCriteria, h, he]
  · simp [LoggerTime.reachedStopCriteria, h, he]
  · simp [LoggerInbagRisk.reachedStopCriteria,
      LoggerInbagRisk.clearLoggerData]
  · simp [LoggerOobRisk.reachedStopCriteria, LoggerOobRisk.clearLoggerData]
  · simp [LoggerIteration.reachedStopCriteria,
      LoggerIteration.clearLoggerData, h]
  · simp [LoggerTime.reachedStopCriteria, LoggerTime.clearLoggerData, h]

/-- Witness for the amended C3 at concrete loggers of every variant. -/
theorem C3_witness :
    (({ is_a_stopper := true, used_loss := fun _ p => p, eps_for_break := 0,
        tracked_inbag_risk := [] } : LoggerInbagRisk).reachedStopCriteria =
      some false) ∧
    (({ is_a_stopper := true, used_loss := fun _ p => p, eps_for_break := 0,
        oob_data := [], oob_response := [], oob_prediction := [],
        tracked_oob_risk := [] } :
        LoggerOobRisk Unit).reachedStopCriteria = some false) ∧
    (({ is_a_stopper := false, max_iterations := 3, iterations := [7] } :
        LoggerIteration).reachedStopCriteria = some false) ∧
    (({ is_a_stopper := false, max_time := 3, time_unit := "seconds",
        init_time := 0, current_time := [9] } :
        LoggerTime).reachedStopCriteria = some false) ∧
    (c3logger.reachedStopCriteria = none) ∧
    (c3timelogger.reachedStopCriteria = none) ∧
    (({ is_a_stopper := true, max_iterations := 3, iterations := [7] } :
        LoggerIteration).clearLoggerData.reachedStopCriteria = none) ∧
    (({ is_a_stopper := true, max_time := 3, time_unit := "seconds",
        init_time := 0, current_time := [9] } :
        LoggerTime).clearLoggerData.reachedStopCriteria = none) :=
  ⟨C3_amended_stop_query.1 _ (by simp),
   C3_amended_stop_query.2.1 Unit _ (by simp),
   C3_amended_stop_query.2.2.1 _ rfl,
   C3_amended_stop_query.2.2.2.1 _ rfl,
   C3_amended_stop_query.2.2.2.2.1 _ rfl rfl,
   C3_amended_stop_query.2.2.2.2.2.1 _ rfl rfl,
   C3_amended_stop_query.2.2.2.2.2.2.2.2.1 _ rfl,
   C3_amended_stop_query.2.2.2.2.2.2.2.2.2 _ rfl⟩

/-- C8: For the TimeLogger configured as a stopper, after at least one
`logStep`, `reachedStopCriteria` returns `true` iff the latest logged
elapsed value (truncated to whole configured units) is at least
`max_time`; with `max_time = 0` it returns `true` after the very first
`logStep`. -/
theorem C8_time_stop_criterion :
    (∀ l : LoggerTime, l.is_a_stopper = true →
      ∀ last, l.current_time.getLast? = some last →
        (l.reachedStopCriteria = some true ↔ l.max_time ≤ last)) ∧
    (∀ l : LoggerTime, l.is_a_stopper = true → l.max_time = 0 →
      l.current_time = [] →
      (l.time_unit = "minutes" ∨ l.time_unit = "seconds" ∨
        l.time_unit = "microseconds") →
      ∀ now : Nat, (l.logStep now).reachedStopCriteria = some true) ∧
    LoggerTime.create true 0 "seconds" = .ok c8logger ∧
    (c8logger.logStep 5).reachedStopCriteria = some true := by
  refine ⟨fun l h last hlast => ?_, fun l h h0 he hu now => ?_, ?_, ?_⟩
  · simp [LoggerTime.reachedStopCriteria, h, hlast]
  · obtain ⟨x, hx⟩ := current_time_logStep l now hu
    have hs := is_a_stopper_time_logStep l now
    have hm := max_time_logStep l now
    simp [LoggerTime.reachedStopCriteria, hs, h, hx, he, hm, h0]
  · rfl
  · decide

/-- Witness for C8: the general predicate applied to the concrete
`TimeLogger("seconds", max_time = 0)` right after its first step. -/
theorem C8_witness :
    (c8logger.logStep 7).reachedStopCriteria = some true :=
  C8_time_stop_criterion.2.1 c8logger rfl rfl rfl
    (Or.inr (Or.inl rfl)) 7

/-- Mapping a constant over two lists of equal length gives the same
list. -/
theorem map_const_eq_of_length {α β : Type} (c : β) (p q : List α)
    (h : p.length = q.length) :
    p.map (fun _ => c) = q.map (fun _ => c) := by
  rw [List.map_const', List.map_const', h]

/-- C2: On a `logStep` at iteration 1 the running held-out prediction is
first overwritten with the offset broadcast over all held-out
observations, and every successful call adds `learning_rate` times the
selected weak model's prediction on the matching held-out data, in place;
with `learning_rate = 0.1`, `offset = 0.0` and three rounds of held-out
predictions `[2.0]` for one observation, the held-out prediction is
`0.2, 0.4, 0.6`. -/
theorem C2_oob_accumulation :
    (∀ (Data : Type) (l : LoggerOobRisk Data) (bl : Baselearner Data)
        (offset lr : ℚ) (d : Data),
        l.oob_data.lookup bl.getDataIdentifier = some d →
        ∃ s, l.logStep 1 bl offset lr = .ok s ∧
          s.oob_prediction = List.zipWith (fun a b => a + lr * b)
            (l.oob_prediction.map (fun _ => offset)) (bl.predict d)) ∧
    (∀ (Data : Type) (l : LoggerOobRisk Data) (bl : Baselearner Data)
        (offset lr : ℚ) (d : Data) (ci : Nat), ci ≠ 1 →
        l.oob_data.lookup bl.getDataIdentifier = some d →
        ∃ s, l.logStep ci bl offset lr = .ok s ∧
          s.oob_prediction = List.zipWith (fun a b => a + lr * b)
            l.oob_prediction (bl.predict d)) ∧
    (c2run 1).predictionOf = some [1/5] ∧
    (c2run 2).predictionOf = some [2/5] ∧
    (c2run 3).predictionOf = some [3/5] := by
  refine ⟨fun Data l bl offset lr d hd => ?_, ?_, ?_, ?_, ?_⟩
  · refine ⟨{ l with
        oob_prediction := List.zipWith (fun a b => a + lr * b)
          (l.oob_prediction.map (fun _ => offset)) (bl.predict d),
        tracked_oob_risk := l.tracked_oob_risk ++
          [mean (l.used_loss l.oob_response
            (List.zipWith (fun a b => a + lr * b)
              (l.oob_prediction.map (fun _ => offset)) (bl.predict d)))] },
      ?_, rfl⟩
    simp [LoggerOobRisk.logStep, hd]
  · intro Data l bl offset lr d ci hci hd
    refine ⟨{ l with
        oob_prediction := List.zipWith (fun a b => a + lr * b)
          l.oob_prediction (bl.predict d),
        tracked_oob_risk := l.tracked_oob_risk ++
          [mean (l.used_loss l.oob_response
            (List.zipWith (fun a b => a + lr * b)
              l.oob_prediction (bl.predict d)))] },
      ?_, rfl⟩
    simp [LoggerOobRisk.logStep, if_neg hci, hd]
  · norm_num [c2run, c2logger, c2blearner, LoggerOobRisk.create,
      LoggerOobRisk.runFrom, LoggerOobRisk.logStep,
      StepOutcome.predictionOf, List.replicate, List.lookup, mean]
  · norm_num [c2run, c2logger, c2blearner, LoggerOobRisk.create,
      LoggerOobRisk.runFrom, LoggerOobRisk.logStep,
      StepOutcome.predictionOf, List.replicate, List.lookup, mean]
  · norm_num [c2run, c2logger, c2blearner, LoggerOobRisk.create,
      LoggerOobRisk.runFrom, LoggerOobRisk.logStep,
      StepOutcome.predictionOf, List.replicate, List.lookup, mean]

/-- Witness for C2 at the concrete single-observation logger. -/
theorem C2_witness :
    ∃ s, c2logger.logStep 1 c2blearner 0 (1/10) = .ok s ∧
      s.oob_prediction = List.zipWith (fun a b => a + (1:ℚ)/10 * b)
        (c2logger.oob_prediction.map (fun _ => (0:ℚ)))
        (c2blearner.predict ()) :=
  C2_oob_accumulation.1 Unit c2logger c2blearner 0 (1/10) () rfl

/-- C4 fails as stated: `clearLoggerData` empties the tracked risk
sequence but leaves the running held-out prediction untouched — here it
stays `[5.0]` rather than being reset to zero. -/
theorem C4_counterexample :
    c4logger.clearLoggerData.tracked_oob_risk = [] ∧
    c4logger.clearLoggerData.oob_prediction = [5] ∧
    ¬ c4logger.clearLoggerData.oob_prediction = [0] := by
  refine ⟨rfl, rfl, ?_⟩
  norm_num [c4logger, LoggerOobRisk.clearLoggerData]

/-- C4 amended: `clearLoggerData` empties the tracked risk sequence and
leaves `oob_prediction` (and everything else) untouched; a retraining
pass nevertheless behaves as a fresh session because `logStep` at
iteration 1 overwrites the prediction with the offset broadcast, making
the result independent of the stale prediction. -/
theorem C4_clear_behavior :
    (∀ (Data : Type) (l : LoggerOobRisk Data),
      l.clearLoggerData.tracked_oob_risk = [] ∧
      l.clearLoggerData.getLoggedData = [] ∧
      l.clearLoggerData.oob_prediction = l.oob_prediction) ∧
    (∀ (Data : Type) (l : LoggerOobRisk Data) (p : List ℚ)
        (bl : Baselearner Data) (offset lr : ℚ),
        p.length = l.oob_prediction.length →
        ({ l with oob_prediction := p } :
            LoggerOobRisk Data).clearLoggerData.logStep 1 bl offset lr =
          l.clearLoggerData.logStep 1 bl offset lr) := by
  refine ⟨fun Data l => ⟨rfl, rfl, rfl⟩, fun Data l p bl offset lr h => ?_⟩
  have hf : p.map (fun _ => offset) =
      l.oob_prediction.map (fun _ => offset) :=
    map_const_eq_of_length offset p l.oob_prediction h
  simp [LoggerOobRisk.logStep, LoggerOobRisk.clearLoggerData, hf]

/-- Witness for C4: two cleared sessions differing only in the stale
held-out prediction agree on the round-1 step. -/
theorem C4_witness :
    ({ c4logger with oob_prediction := [9] } :
        LoggerOobRisk Unit).clearLoggerData.logStep 1
        ({ getDataIdentifier := "x", predict := fun _ => [2] } :
          Baselearner Unit) 0 (1/10) =
      c4logger.clearLoggerData.logStep 1
        ({ getDataIdentifier := "x", predict := fun _ => [2] } :
          Baselearner Unit) 0 (1/10) :=
  C4_clear_behavior.2 Unit c4logger [9]
    { getDataIdentifier := "x", predict := fun _ => [2] } 0 (1/10) rfl

/-- C5 fails as stated: with the selected weak model's data identifier
absent from the held-out map, `logStep` dereferences the failed lookup —
undefined behaviour with no reported error — and at iteration 1 the
held-out prediction has already been overwritten with the offset before
the faulting lookup, so the state is partially updated. -/
theorem C5_counterexample :
    (c5logger.logStep 1 c5blearner 0 (1/10)).isOk = false ∧
    c5logger.logStep 1 c5blearner 0 (1/10) =
      .ub { c5logger with oob_prediction := [0] } ∧
    ¬ (({ c5logger with oob_prediction := [0] } :
        LoggerOobRisk Unit).oob_prediction = c5logger.oob_prediction) := by
  refine ⟨rfl, rfl, ?_⟩
  norm_num [c5logger]

/-- C5 amended: a missing identifier makes `logStep` reach the unchecked
dereference of the failed map lookup (undefined behaviour, no diagnostic);
the call never completes normally, and the state carried to the undefined
point already holds the offset-filled prediction when the iteration is
1. -/
theorem C5_lookup_is_undefined :
    (∀ (Data : Type) (l : LoggerOobRisk Data) (bl : Baselearner Data)
        (offset lr : ℚ) (ci : Nat),
        l.oob_data.lookup bl.getDataIdentifier = none →
        l.logStep ci bl offset lr = .ub (if ci = 1 then
          { l with oob_prediction := l.oob_prediction.map (fun _ => offset) }
          else l)) ∧
    (∀ (Data : Type) (l : LoggerOobRisk Data) (bl : Baselearner Data)
        (offset lr : ℚ) (ci : Nat),
        l.oob_data.lookup bl.getDataIdentifier = none →
        (l.logStep ci bl offset lr).isOk = false) := by
  constructor
  · intro Data l bl offset lr ci h
    by_cases hci : ci = 1
    · simp [LoggerOobRisk.logStep, hci, h]
    · simp [LoggerOobRisk.logStep, if_neg hci, h]
  · intro Data l bl offset lr ci h
    by_cases hci : ci = 1
    · simp [LoggerOobRisk.logStep, hci, h, StepOutcome.isOk]
    · simp [LoggerOobRisk.logStep, if_neg hci, h, StepOutcome.isOk]

/-- Witness for the amended C5 at the concrete missing-identifier
round. -/
theorem C5_witness :
    c5logger.logStep 2 c5blearner 0 (1/10) = .ub (if 2 = 1 then
      { c5logger with
        oob_prediction := c5logger.oob_prediction.map (fun _ => (0:ℚ)) }
      else c5logger) :=
  C5_lookup_is_undefined.1 Unit c5logger c5blearner 0 (1/10) 2 rfl

/-- C6 fails in one detail: construction with time unit `"days"` does
raise a configuration error before any `logStep`, but the diagnostic
lists the admissible units and does not report the offending value. -/
theorem C6_counterexample :
    LoggerTime.create true 0 "days" = .error timeUnitStopMsg ∧
    containsStr timeUnitStopMsg "days" = false := by
  exact ⟨rfl, by decide⟩

/-- C6 amended: a `time_unit` outside `{"seconds", "minutes",
"microseconds"}` fails construction immediately with a configuration
error whose message lists the admissible units (it does not echo the
offending value), and a valid unit is stored verbatim — never silently
replaced by a default. -/
theorem C6_time_unit_validation :
    (∀ (b : Bool) (m : Nat) (u : String),
        u ≠ "minutes" → u ≠ "seconds" → u ≠ "microseconds" →
        LoggerTime.create b m u = .error timeUnitStopMsg) ∧
    (∀ (b : Bool) (m : Nat) (u : String) (l : LoggerTime),
        LoggerTime.create b m u = .ok l →
        l.time_unit = u ∧ l.is_a_stopper = b ∧ l.max_time = m ∧
          l.current_time = []) ∧
    containsStr timeUnitStopMsg "microseconds" = true ∧
    containsStr timeUnitStopMsg "seconds" = true ∧
    containsStr timeUnitStopMsg "minutes" = true := by
  refine ⟨fun b m u h1 h2 h3 => ?_, fun b m u l h => ?_,
    by decide, by decide, by decide⟩
  · simp [LoggerTime.create, h1, h2, h3]
  · simp only [LoggerTime.create] at h
    split at h
    · split at h
      · split at h
        · cases h
        · cases h
          exact ⟨rfl, rfl, rfl, rfl⟩
      · cases h
        exact ⟨rfl, rfl, rfl, rfl⟩
    · cases h
      exact ⟨rfl, rfl, rfl, rfl⟩

/-- Witness for the amended C6 at the unit string `"days"`. -/
theorem C6_witness :
    LoggerTime.create false 9 "days" = .error timeUnitStopMsg :=
  C6_time_unit_validation.1 false 9 "days" (by decide) (by decide)
    (by decide)

/-- C9: every logger's `logStep` appends exactly one entry, leaving
earlier entries untouched and in round order, and after `n` steps from a
cleared logger `getLoggedData` has length exactly `n` (for
valid configurations: the Time logger needs a recognized unit, the
Validation logger successful lookups). -/
theorem C9_log_growth :
    (∀ (l : LoggerIteration) (ci : Nat),
      (l.logStep ci).iterations = l.iterations ++ [ci]) ∧
    (∀ (l : LoggerInbagRisk) (resp pred : List ℚ),
      (l.logStep resp pred).tracked_inbag_risk =
        l.tracked_inbag_risk ++ [mean (l.used_loss resp pred)]) ∧
    (∀ (Data : Type) (l : LoggerOobRisk Data) (ci : Nat)
        (bl : Baselearner Data) (offset lr : ℚ) (s : LoggerOobRisk Data),
        l.logStep ci bl offset lr = .ok s →
        ∃ x, s.tracked_oob_risk = l.tracked_oob_risk ++ [x]) ∧
    (∀ (l : LoggerTime) (now : Nat),
        (l.time_unit = "minutes" ∨ l.time_unit = "seconds" ∨
          l.time_unit = "microseconds") →
        ∃ x, (l.logStep now).current_time = l.current_time ++ [x]) ∧
    (∀ (l : LoggerIteration) (rounds : List Nat),
      (l.clearLoggerData.runSteps rounds).getLoggedData.length =
        rounds.length) ∧
    (∀ (l : LoggerInbagRisk) (steps : List (List ℚ × List ℚ)),
      (l.clearLoggerData.runSteps steps).getLoggedData.length =
        steps.length) ∧
    (∀ (l : LoggerTime) (nows : List Nat),
        (l.time_unit = "minutes" ∨ l.time_unit = "seconds" ∨
          l.time_unit = "microseconds") →
        (l.clearLoggerData.runSteps nows).getLoggedData.length =
          nows.length) ∧
    (∀ (Data : Type) (l : LoggerOobRisk Data)
        (bls : List (Baselearner Data)) (offset lr : ℚ)
        (s : LoggerOobRisk Data),
        l.clearLoggerData.runFrom 1 bls offset lr = .ok s →
        s.getLoggedData.length = bls.length) := by
  refine ⟨fun l ci => rfl, fun l resp pred => rfl,
    fun Data l ci bl offset lr s h => tracked_logStep_oob l ci bl offset lr s h,
    fun l now h => current_time_logStep l now h,
    fun l rounds => ?_, fun l steps => ?_, fun l nows h => ?_,
    fun Data l bls offset lr s h => ?_⟩
  · have h5 := iterations_runSteps rounds l.clearLoggerData
    simp only [LoggerIteration.clearLoggerData, List.nil_append] at h5
    simp only [LoggerIteration.getLoggedData, List.length_map,
      LoggerIteration.clearLoggerData, h5]
  · have h6 := tracked_runSteps_inbag steps l.clearLoggerData
    simp only [LoggerInbagRisk.clearLoggerData, List.nil_append] at h6
    simp only [LoggerInbagRisk.getLoggedData, LoggerInbagRisk.clearLoggerData,
      h6, List.length_map]
  · have h' := length_runSteps_time nows l.clearLoggerData h
    simp only [LoggerTime.clearLoggerData, List.length_nil,
      Nat.zero_add] at h'
    simp only [LoggerTime.getLoggedData, List.length_map,
      LoggerTime.clearLoggerData, h']
  · have h' := length_runFrom_oob bls l.clearLoggerData 1 offset lr s h
    simp [LoggerOobRisk.clearLoggerData] at h'
    simp [LoggerOobRisk.getLoggedData, h']

/-- Witness for C9 at concrete loggers: one Validation round appends one
risk entry, one Time step appends one elapsed entry, and cleared sessions
of length 2 and 1 have logs of length 2 and 1. -/
theorem C9_witness :
    (∃ x, c9run1.tracked_oob_risk =
      c9logger.clearLoggerData.tracked_oob_risk ++ [x]) ∧
    (∃ x, (c8logger.logStep 3).current_time =
      c8logger.current_time ++ [x]) ∧
    ((c8logger.clearLoggerData.runSteps [4, 9]).getLoggedData.length = 2) ∧
    (c9run1.getLoggedData.length = 1) :=
  ⟨C9_log_growth.2.2.1 Unit c9logger.clearLoggerData 1 c9blearner 0 1
      c9run1 (by norm_num [c9logger, c9run1, c9blearner,
        LoggerOobRisk.clearLoggerData, LoggerOobRisk.logStep,
        List.lookup, mean]),
   C9_log_growth.2.2.2.1 c8logger 3 (Or.inr (Or.inl rfl)),
   C9_log_growth.2.2.2.2.2.2.1 c8logger [4, 9] (Or.inr (Or.inl rfl)),
   C9_log_growth.2.2.2.2.2.2.2 Unit c9logger [c9blearner] 0 1 c9run1
     (by norm_num [c9logger, c9run1, c9blearner, LoggerOobRisk.runFrom,
       LoggerOobRisk.clearLoggerData, LoggerOobRisk.logStep,
       List.lookup, mean])⟩

/-- C10: for every variant, `clearLoggerData` leaves the whole
construction-time configuration unchanged — the stopper flag,
`max_iterations`, the loss reference and `eps_for_break`, the held-out
data map and response, `max_time` and `time_unit`. -/
theorem C10_clear_preserves_config :
    (∀ l : LoggerIteration,
      l.clearLoggerData.is_a_stopper = l.is_a_stopper ∧
      l.clearLoggerData.max_iterations = l.max_iterations) ∧
    (∀ l : LoggerInbagRisk,
      l.clearLoggerData.is_a_stopper = l.is_a_stopper ∧
      l.clearLoggerData.used_loss = l.used_loss ∧
      l.clearLoggerData.eps_for_break = l.eps_for_break) ∧
    (∀ (Data : Type) (l : LoggerOobRisk Data),
      l.clearLoggerData.is_a_stopper = l.is_a_stopper ∧
      l.clearLoggerData.used_loss = l.used_loss ∧
      l.clearLoggerData.eps_for_break = l.eps_for_break ∧
      l.clearLoggerData.oob_data = l.oob_data ∧
      l.clearLoggerData.oob_response = l.oob_response) ∧
    (∀ l : LoggerTime,
      l.clearLoggerData.is_a_stopper = l.is_a_stopper ∧
      l.clearLoggerData.max_time = l.max_time ∧
      l.clearLoggerData.time_unit = l.time_unit) :=
  ⟨fun l => ⟨rfl, rfl⟩, fun l => ⟨rfl, rfl, rfl⟩,
   fun Data l => ⟨rfl, rfl, rfl, rfl, rfl⟩, fun l => ⟨rfl, rfl, rfl⟩⟩

end Compboost
